import Mathlib

/-!
Verification of the Baobab AI RAG pipeline
(`backend/llm_pipeline.py` and `backend/services/rag_service.py`).

The Python functions are shallowly embedded as Lean definitions.  External
collaborators (the SerpAPI search provider, the HTTP fetch + HTML extraction,
the FAISS retriever and the OpenAI completion endpoint) are passed in as
explicit oracles; a Python computation that may raise is modelled as an
`Except String` value, an exception being the `error` case.  Python strings
are modelled as Lean `String` (a list of code points, so Python slicing
`s[:n]` is `List.take` on `String.data`).  The Python string primitives
`split` / `strip` / `lower` / `in` are re-implemented structurally on the
code-point list (over the ASCII whitespace and letters that actually occur
in this code base) so that every definition evaluates by kernel reduction.
-/

deriving instance DecidableEq for Except

/-- Helper for `pySplit`: scan the code points, `acc` holding the current
word reversed; whitespace closes the current word (if any). -/
def pySplitAux : List Char → List Char → List String
  | [], acc => if acc.isEmpty then [] else [String.mk acc.reverse]
  | c :: cs, acc =>
    if c.isWhitespace then
      if acc.isEmpty then pySplitAux cs [] else String.mk acc.reverse :: pySplitAux cs []
    else pySplitAux cs (c :: acc)

/-- Python `s.split()`: split on runs of whitespace, discarding empty pieces. -/
def pySplit (s : String) : List String :=
  pySplitAux s.data []

/-- Python `s.strip()`: remove leading and trailing whitespace. -/
def pyStrip (s : String) : String :=
  String.mk (((s.data.dropWhile Char.isWhitespace).reverse.dropWhile
    Char.isWhitespace).reverse)

/-- Python `s[:n]` for a nonnegative `n`: the first `n` code points. -/
def pyTake (s : String) (n : Nat) : String :=
  String.mk (s.data.take n)

/-- Python `s.lower()`. -/
def pyLower (s : String) : String :=
  String.mk (s.data.map Char.toLower)

/-- Helper for `strContains`: does the pattern occur at the front? -/
def listStartsWith : List Char → List Char → Bool
  | _, [] => true
  | [], _ :: _ => false
  | a :: as, b :: bs => a = b && listStartsWith as bs

/-- Helper for `strContains`: does the pattern occur anywhere? -/
def listHasSub : List Char → List Char → Bool
  | [], pat => pat.isEmpty
  | a :: rest, pat => listStartsWith (a :: rest) pat || listHasSub rest pat

/-- Python substring test `pat in s`. -/
def strContains (s pat : String) : Bool :=
  listHasSub s.data pat.data

/-- Number of elements of Python `range(0, n, step)` for `step > 0`,
i.e. `⌈n / step⌉`. -/
def ceil_div (n step : Nat) : Nat :=
  (n + step - 1) / step

/-- Python `range(0, n, step)` for `step > 0`: `0, step, 2*step, …` below `n`. -/
def pyRange (n step : Nat) : List Nat :=
  (List.range (ceil_div n step)).map (fun k => k * step)

/-- The message of the `ValueError` Python raises for `range(0, n, 0)`. -/
def pyRangeZeroStepError : String :=
  "ValueError: range() arg 3 must not be zero"

/-- One window of the chunking loop: `words[i:i+chunk_size]`
(`rag_service.py` line 150, `llm_pipeline.py` line 45). -/
def chunkWindow (words : List String) (chunk_size i : Nat) : List String :=
  (words.drop i).take chunk_size

/-- All windows of the chunking loop, joined by single spaces:
`" ".join(words[i:i+chunk_size])` for `i in range(0, len(words), step)`. -/
def chunkWindows (words : List String) (chunk_size step : Nat) : List String :=
  (pyRange words.length step).map
    (fun i => String.intercalate " " (chunkWindow words chunk_size i))

/-- Body of `AfricanRAGService.chunk_text` (`rag_service.py` lines 146-156)
for the well-founded case `overlap < chunk_size`: windows whose joined text,
stripped, is longer than 50 characters. -/
def rag_chunk_core (text : String) (chunk_size overlap : Nat) : List String :=
  (chunkWindows (pySplit text) chunk_size (chunk_size - overlap)).filter
    (fun c => 50 < (pyStrip c).length)

/-- Body of `llm_pipeline.chunk_text` (lines 42-48) for the case
`overlap < chunk_size`: windows whose joined text is nonempty. -/
def lp_chunk_core (text : String) (chunk_size overlap : Nat) : List String :=
  (chunkWindows (pySplit text) chunk_size (chunk_size - overlap)).filter
    (fun c => c ≠ "")

/-- `AfricanRAGService.chunk_text` (`rag_service.py` lines 141-156) with
Python `range` semantics for the step `chunk_size - overlap`:
an empty text returns `[]` before the loop is reached; a zero step raises
`ValueError`; a negative step makes `range(0, len(words), step)` empty, so
the loop body never runs and `[]` is returned. -/
def rag_chunk_text (text : String) (chunk_size overlap : Nat) :
    Except String (List String) :=
  if text = "" then Except.ok []
  else if overlap < chunk_size then Except.ok (rag_chunk_core text chunk_size overlap)
  else if chunk_size = overlap then Except.error pyRangeZeroStepError
  else Except.ok []

/-- `llm_pipeline.chunk_text` (lines 40-48) with the same Python `range`
semantics; it has no empty-text early return. -/
def lp_chunk_text (text : String) (chunk_size overlap : Nat) :
    Except String (List String) :=
  if overlap < chunk_size then Except.ok (lp_chunk_core text chunk_size overlap)
  else if chunk_size = overlap then Except.error pyRangeZeroStepError
  else Except.ok []







/-- One entry of the SerpAPI response's `organic_results` list; the `.get`
calls with string defaults are modelled by `Option` fields. -/
structure OrganicResult where
  title : Option String
  link : Option String
  snippet : Option String
deriving DecidableEq

/-- The SerpAPI `search.results(query)` payload; `results.get("organic_results", [])`
is modelled by the field itself (absent key ↦ `[]`). -/
structure SerpResults where
  organic_results : List OrganicResult
deriving DecidableEq

/-- One element of the list returned by `AfricanRAGService.web_search`. -/
structure SearchLink where
  title : String
  link : String
  snippet : String
deriving DecidableEq

/-- One element of the list returned by `llm_pipeline.web_search`. -/
structure WebLink where
  title : String
  link : String
deriving DecidableEq

/-- The keyword list of `rag_service.py` line 100. -/
def african_terms : List String :=
  ["africa", "african", "nigeria", "kenya", "south africa"]

/-- Query rewriting of `AfricanRAGService.web_search` (lines 100-101):
append bias terms unless the lowered query already mentions one. -/
def rag_effective_query (query : String) (african_focus : Bool) : String :=
  if african_focus && !(african_terms.any fun t => strContains (pyLower query) t)
  then query ++ " Africa African business"
  else query

/-- `AfricanRAGService.web_search` (`rag_service.py` lines 95-115).  The
`search.results` call is the `provider` oracle; it sits inside
`try/except`, so a provider failure yields `[]`. -/
def rag_web_search (provider : String → Except String SerpResults)
    (query : String) (num_results : Nat) (african_focus : Bool) :
    List SearchLink :=
  match provider (rag_effective_query query african_focus) with
  | Except.ok results =>
      (results.organic_results.take num_results).map fun r =>
        { title := r.title.getD "", link := r.link.getD "",
          snippet := r.snippet.getD "" }
  | Except.error _ => []

/-- `llm_pipeline.web_search` (lines 18-25).  There is no `try/except`
here, so a provider failure propagates to the caller. -/
def lp_web_search (provider : String → Except String SerpResults)
    (query : String) (num_results : Nat) : Except String (List WebLink) := do
  let results ← provider query
  pure ((results.organic_results.take num_results).map fun r =>
    { title := r.title.getD "", link := r.link.getD "" })

/-- `llm_pipeline.fetch_webpage_text` (lines 27-38).  The whole `try` body
(HTTP GET, HTML parse, tag stripping, text extraction) is the `outcome`
oracle producing the extracted text; any raised error yields `""`, a
success is truncated to 5000 characters. -/
def fetch_webpage_text (outcome : Except String String) : String :=
  match outcome with
  | Except.ok text => pyTake text 5000
  | Except.error _ => ""

/-- `AfricanRAGService.fetch_webpage_content` (`rag_service.py` lines
117-139), same shape with a `max_chars` parameter defaulting to 8000. -/
def fetch_webpage_content (outcome : Except String String) (max_chars : Nat) :
    String :=
  match outcome with
  | Except.ok text => pyTake text max_chars
  | Except.error _ => ""

/-- The four template fragments of one language entry of
`AfricanRAGService._get_language_prompts`. -/
structure LangPrompts where
  system : String
  context_intro : String
  no_answer : String
  cite_sources : String
deriving DecidableEq

/-- The `"en"` entry of `_get_language_prompts` (lines 74-79). -/
def en_prompts : LangPrompts where
  system := "You are an AI expert specializing in African business contexts and AI implementation. "
  context_intro := "Using the CONTEXT below (from web sources and African AI knowledge base), answer precisely and practically. "
  no_answer := "I don't have enough information about that specific topic. "
  cite_sources := "Cite web sources when available and reference African case studies when relevant."

/-- The `"fr"` entry of `_get_language_prompts` (lines 80-85). -/
def fr_prompts : LangPrompts where
  system := "Tu es un expert en IA spécialisé dans les contextes d'affaires africains et l'implémentation d'IA. "
  context_intro := "En utilisant le CONTEXTE ci-dessous (sources web et base de connaissances IA africaine), réponds de façon précise et pratique. "
  no_answer := "Je n'ai pas assez d'informations sur ce sujet spécifique. "
  cite_sources := "Cite les sources web quand disponibles et référence les études de cas africaines quand pertinentes."

/-- The `"sw"` entry of `_get_language_prompts` (lines 86-91). -/
def sw_prompts : LangPrompts where
  system := "Wewe ni mtaalamu wa AI unayejumuisha mazingira ya biashara za Kiafrika na utekelezaji wa AI. "
  context_intro := "Kwa kutumia MUKTADHA hapo chini (vyanzo vya wavuti na msingi wa maarifa ya AI ya Kiafrika), jibu kwa usahihi na vitendo. "
  no_answer := "Sina habari za kutosha kuhusu mada hiyo mahususi. "
  cite_sources := "Taja vyanzo vya wavuti vinapokona na rejelea masomo ya kesi za Kiafrika vinapofaa."

/-- `AfricanRAGService._get_language_prompts` (lines 71-93):
`prompts.get(language, prompts["en"])`. -/
def get_language_prompts (language : String) : LangPrompts :=
  if language = "en" then en_prompts
  else if language = "fr" then fr_prompts
  else if language = "sw" then sw_prompts
  else en_prompts

/-- The `system_prompt` f-string of `AfricanRAGService.generate_response`
(lines 167-176). -/
def rag_system_prompt (language context question : String) : String :=
  (get_language_prompts language).system ++
  (get_language_prompts language).context_intro ++
  "Focus on practical implementation for African businesses. " ++
  "Consider local infrastructure, mobile-first approaches, and cost-effective solutions. " ++
  (get_language_prompts language).cite_sources ++
  "\n\nCONTEXT:\n" ++ context ++ "\n\nQUESTION: " ++ question ++ "\n\nRESPONSE:"

/-- The language-dependent sources header of `generate_response`
(lines 184-189). -/
def sources_header (language : String) : String :=
  if language = "fr" then "\n\n📚 Sources :\n"
  else if language = "sw" then "\n\n📚 Vyanzo :\n"
  else "\n\n📚 Sources :\n"

/-- The bulleted source lines of `generate_response` (lines 191-192):
one `• title - link` line per source, capped at the first three. -/
def sources_block (sources : List SearchLink) : String :=
  (sources.take 3).foldl (fun acc s => acc ++ "• " ++ s.title ++ " - " ++ s.link ++ "\n") ""

/-- The fixed apology strings of `generate_response` (lines 196-203). -/
def apology (language : String) : String :=
  if language = "fr" then "Désolé, je ne peux pas répondre à cette question pour le moment."
  else if language = "sw" then "Samahani, siwezi kujibu swali hilo kwa sasa."
  else "Sorry, I cannot answer that question at the moment."

/-- `AfricanRAGService.generate_response` (`rag_service.py` lines 158-203).
The `self.llm.invoke` call is the `llm` oracle; it and the source-list
appending sit inside the `try`, whose `except` returns the apology.
The `sources` parameter defaults to `None` in Python and `if sources:`
tests for a non-empty list, modelled by `List.isEmpty`. -/
def generate_response (llm : String → Except String String)
    (question context language : String) (sources : List SearchLink) : String :=
  match llm (rag_system_prompt language context question) with
  | Except.ok response =>
      let answer := pyStrip response
      if sources.isEmpty then answer
      else answer ++ sources_header language ++ sources_block sources
  | Except.error _ => apology language



/-- `AfricanRAGService._load_african_knowledge` (`rag_service.py` lines
23-69): the static knowledge base, 28 entries. -/
def african_knowledge_base : List String :=
  [ "Africa's AI market is projected to reach $16.5B by 2030 with 28% annual growth rate.",
    "Only 14% of African companies are ready to integrate AI into their operations as of 2024.",
    "South Africa, Nigeria, and Kenya lead AI adoption in Africa with the most startups and investments.",
    "Mobile-first AI solutions are crucial in Africa due to high mobile phone penetration (>80%) vs low desktop access.",
    "Data sovereignty and local language support are key challenges for AI adoption in Africa.",
    "Major African languages for AI development: Swahili (100M+ speakers), Hausa (70M+), Yoruba (45M+), Amharic (32M+).",
    "French is spoken by 280M+ people across 29 African countries, making it crucial for AI applications.",
    "Arabic is dominant in North Africa with 200M+ speakers across countries like Egypt, Algeria, Morocco.",
    "Indigenous languages like Igbo, Zulu, Xhosa need AI support for inclusive technology development.",
    "Cultural context matters: African storytelling traditions, community-based decision making, ubuntu philosophy.",
    "Africa has over 600 active tech hubs, with Nigeria (90+), South Africa (80+), and Kenya (50+) leading.",
    "Cloud adoption growing rapidly: AWS, Google Cloud, Microsoft Azure all expanding African data centers.",
    "Internet penetration varies widely: urban areas 70%+, rural areas often <30%, affecting AI deployment strategies.",
    "Mobile money systems like M-Pesa demonstrate African fintech innovation leadership globally.",
    "African AI startups: DataProphet (South Africa) - predictive maintenance, Zindi - data science competitions.",
    "Healthcare AI: Ubenwa (Nigeria) analyzes infant cries, Ilara Health (Kenya) provides diagnostic tools.",
    "Agriculture AI: Aerobotics (South Africa) crop monitoring, iCow (Kenya) farmer advisory via SMS.",
    "Education AI: Eneza Education (Kenya) serves 6M+ students via SMS/WhatsApp learning platforms.",
    "African developers prefer Python (85%), JavaScript (70%), Java (45%) for AI development.",
    "Popular AI frameworks in Africa: TensorFlow, PyTorch, scikit-learn, Hugging Face transformers.",
    "Cloud-first MLOps approach recommended due to limited on-premise infrastructure in many regions.",
    "AutoML tools gaining traction to bridge AI skills gap: H2O.ai, DataRobot, Google AutoML.",
    "Data quality and availability major challenges: 60% of African businesses lack quality data for AI.",
    "AI talent shortage: Africa needs 3M+ more AI professionals by 2030 to meet demand.",
    "Regulatory frameworks developing: South Africa's POPIA, Nigeria's NDPR lead data protection efforts.",
    "Investment growing: African AI startups raised $200M+ in 2023, 5x increase from 2019.",
    "Baobab AI Labs focuses on practical AI education for African businesses and developers.",
    "Our mission: Make AI accessible, practical, and impactful for every African business." ]

/-- The hard-coded local knowledge base of `llm_pipeline.run_agent`
(lines 80-92), 11 entries. -/
def lp_local_docs : List String :=
  [ "La capitale de la France est Paris.",
    "L’IA signifie Intelligence Artificielle.",
    "LangChain permet de construire des applications LLM augmentées par la récupération de documents.",
    "Actuel président de la France : Emmanuel Macron.",
    "Python est un langage de programmation populaire pour l'IA.",
    "La Tour Eiffel est un monument emblématique de Paris.",
    "Le machine learning est une sous-catégorie de l'IA.",
    "Les modèles de langage comme GPT-3 sont utilisés pour générer du texte.",
    "La bibliothèque LangChain facilite l'intégration des LLM avec des bases de données.",
    "Bakary sidibe est la personne qui a créé Baobab AI et aussi le premier ministre de France.",
    "FAISS est une bibliothèque pour la recherche de similarité dans de grandes collections de vect" ]

/-- The external collaborators of the two pipelines: the SerpAPI call, the
per-URL fetch-and-extract computation, the FAISS retriever (corpus and
question to the `page_content` of the retrieved documents) and the OpenAI
completion call. -/
structure RagOracles where
  provider : String → Except String SerpResults
  fetch : String → Except String String
  retrieve : List String → String → List String
  llm : String → Except String String

/-- Steps 1-2 of `AfricanRAGService.run_enhanced_rag` (lines 216-224): the
fetch-and-chunk loop over the search results.  `chunk_text` is called with
its defaults `(600, 100)`, which is the `Except.ok` case
(`rag_chunk_text_defaults` below). -/
def rag_web_chunks (o : RagOracles) (question : String)
    (num_web_sources : Nat) (search_african_focus : Bool) : List String :=
  (rag_web_search o.provider question num_web_sources search_african_focus).foldl
    (fun acc s =>
      let content := fetch_webpage_content (o.fetch s.link) 8000
      if content = "" then acc else acc ++ rag_chunk_core content 600 100)
    []

/-- `AfricanRAGService.run_enhanced_rag` (`rag_service.py` lines 205-247):
search, fetch and chunk, assemble the corpus (web chunks, plus the
knowledge base when `include_african_context`), retrieve over it when
non-empty (else fall back to the first 5 knowledge-base entries), and
generate the response with the search results as sources. -/
def run_enhanced_rag (o : RagOracles) (question language : String)
    (num_web_sources : Nat) (include_african_context search_african_focus : Bool) :
    String :=
  let web_sources := rag_web_search o.provider question num_web_sources search_african_focus
  let web_chunks := rag_web_chunks o question num_web_sources search_african_focus
  let all_chunks := web_chunks ++ (if include_african_context then african_knowledge_base else [])
  let context :=
    if all_chunks.isEmpty then String.intercalate "\n" (african_knowledge_base.take 5)
    else String.intercalate "\n" (o.retrieve all_chunks question)
  generate_response o.llm question context language web_sources

/-- The two prompt templates of `llm_pipeline.run_agent` (lines 98-111)
after `.format(context=..., question=...)`. -/
def agent_prompt (language context question : String) : String :=
  if language = "en" then
    "You are an expert in general knowledge and current events. " ++
    "Using ONLY the CONTEXT below (from the web and your local knowledge base), answer the QUESTION precisely and concisely. " ++
    "If you don't know, say so explicitly. Cite your web sources if possible.\n\n" ++
    "CONTEXT:\n" ++ context ++ "\n\nQUESTION: " ++ question ++ "\n\nAnswer:"
  else
    "Tu es un expert en culture générale et actualité. " ++
    "En t'appuyant uniquement sur le CONTEXTE ci-dessous (issu du web et de ta base locale), réponds de façon précise et concise à la QUESTION. " ++
    "Si tu ne sais pas, dis-le explicitement. Cite tes sources web si possible.\n\n" ++
    "CONTEXTE :\n" ++ context ++ "\n\nQUESTION : " ++ question ++ "\n\nRéponse :"

/-- `llm_pipeline.run_agent` (lines 50-116).  `web_search` and the
`llm.invoke` call may raise (neither is guarded), hence the `Except`
result.  The fetch loop keeps, per fetched page with non-empty text, its
chunks and one `title (url)` source tag per chunk (the accumulated
`sources` list is never read afterwards, faithfully to the source).
`chunk_text` is called with its defaults `(512, 64)` inside the loop. -/
def run_agent (o : RagOracles) (question language : String)
    (num_web_sources : Nat) (use_local_knowledge : Bool) :
    Except String String := do
  let links ← lp_web_search o.provider question num_web_sources
  let acc ← links.foldlM
    (fun (acc : List String × List String) link => do
      let text := fetch_webpage_text (o.fetch link.link)
      if text = "" then pure acc
      else do
        let chunks ← lp_chunk_text text 512 64
        pure (acc.1 ++ chunks,
              acc.2 ++ chunks.map fun _ => link.title ++ " (" ++ link.link ++ ")"))
    (([], []) : List String × List String)
  let web_chunks := acc.1
  let local_docs := if use_local_knowledge then lp_local_docs else []
  let all_chunks := web_chunks ++ local_docs
  let context := String.intercalate "\n" (o.retrieve all_chunks question)
  let completion ← o.llm (agent_prompt language context question)
  let answer := pyStrip completion
  if links.isEmpty then pure answer
  else pure (answer ++ "\n\nSources :\n" ++
    String.intercalate "\n" (links.map fun l => "- " ++ l.title ++ " : " ++ l.link))


/-- Concrete collaborators for a `run_agent` run: the search provider
returns four ranked results, every page fetch succeeds with non-empty
text, and the completion call succeeds. -/
def c7_oracles : RagOracles where
  provider := fun _ => Except.ok ⟨[⟨some "T1", some "u1", none⟩, ⟨some "T2", some "u2", none⟩,
    ⟨some "T3", some "u3", none⟩, ⟨some "T4", some "u4", none⟩]⟩
  fetch := fun _ => Except.ok "hello world"
  retrieve := fun _ _ => []
  llm := fun _ => Except.ok "ANSWER"

/-- Concrete collaborators for a `run_enhanced_rag` run: the search
provider succeeds with zero organic results and the completion call
returns the empty string. -/
def c8_oracles : RagOracles where
  provider := fun _ => Except.ok ⟨[]⟩
  fetch := fun _ => Except.error "network down"
  retrieve := fun _ _ => []
  llm := fun _ => Except.ok ""

/-- Concrete collaborators for a `run_enhanced_rag` run: zero search
results, and the completion call returns a non-empty answer. -/
def c8w_oracles : RagOracles where
  provider := fun _ => Except.ok ⟨[]⟩
  fetch := fun _ => Except.error "network down"
  retrieve := fun _ _ => []
  llm := fun _ => Except.ok "Bonjour"

/-- Concrete collaborators for a `run_enhanced_rag` run: one search
result whose page fetch fails, so no web chunk is obtained. -/
def c10_oracles : RagOracles where
  provider := fun _ => Except.ok ⟨[⟨some "T", some "u", none⟩]⟩
  fetch := fun _ => Except.error "timeout"
  retrieve := fun _ _ => []
  llm := fun _ => Except.ok "OK"

/-! Helper lemmas about the chunking embedding. -/

theorem pyRange_length (n step : Nat) : (pyRange n step).length = ceil_div n step := by
  simp [pyRange]

theorem mem_pyRange_lt {n step i : Nat} (hstep : 0 < step) (h : i ∈ pyRange n step) :
    i < n := by
  simp only [pyRange, List.mem_map, List.mem_range] at h
  obtain ⟨k, hk, rfl⟩ := h
  have h1 : k + 1 ≤ ceil_div n step := hk
  have h2 : (k + 1) * step ≤ n + step - 1 :=
    (Nat.le_div_iff_mul_le hstep).mp h1
  rw [Nat.add_mul, one_mul] at h2
  omega

theorem intercalate_go_length (l : List String) (acc s : String) :
    acc.length ≤ (String.intercalate.go acc s l).length := by
  induction l generalizing acc with
  | nil => exact Nat.le_refl _
  | cons a as ih =>
      calc acc.length ≤ (acc ++ s ++ a).length := by
            rw [String.length_append, String.length_append]; omega
        _ ≤ (String.intercalate.go (acc ++ s ++ a) s as).length := ih _

theorem data_ne_nil_of_ne_empty {w : String} (h : w.data ≠ []) : w ≠ "" := by
  intro hc; rw [hc] at h; exact h rfl

theorem intercalate_cons_ne_empty (s w : String) (ws : List String)
    (hw : w ≠ "") : String.intercalate s (w :: ws) ≠ "" := by
  have hlen : 0 < w.length := by
    rcases Nat.eq_zero_or_pos w.length with h0 | h0
    · exact absurd (String.ext (List.eq_nil_of_length_eq_zero h0)) hw
    · exact h0
  have h1 : w.length ≤ (String.intercalate s (w :: ws)).length := by
    show w.length ≤ (String.intercalate.go w s ws).length
    exact intercalate_go_length ws w s
  intro hc
  rw [hc] at h1
  rw [show ("" : String).length = 0 from rfl] at h1
  omega

theorem pySplitAux_ne_empty (cs : List Char) :
    ∀ acc w, w ∈ pySplitAux cs acc → w.data ≠ [] := by
  induction cs with
  | nil =>
      intro acc w hw
      by_cases hacc : acc.isEmpty
      · simp [pySplitAux, hacc] at hw
      · simp [pySplitAux, hacc] at hw
        subst hw
        simp only [List.isEmpty_iff] at hacc
        simpa using hacc
  | cons c cs ih =>
      intro acc w hw
      by_cases hws : c.isWhitespace
      · by_cases hacc : acc.isEmpty
        · simp [pySplitAux, hws, hacc] at hw
          exact ih [] w hw
        · simp [pySplitAux, hws, hacc] at hw
          rcases hw with hw | hw
          · subst hw
            simp only [List.isEmpty_iff] at hacc
            simpa using hacc
          · exact ih [] w hw
      · simp [pySplitAux, hws] at hw
        exact ih (c :: acc) w hw

theorem pySplit_ne_empty (t : String) : ∀ w ∈ pySplit t, w ≠ "" :=
  fun w hw => data_ne_nil_of_ne_empty (pySplitAux_ne_empty t.data [] w hw)

theorem chunkWindow_join_ne_empty (words : List String)
    (hw : ∀ w ∈ words, w ≠ "") (c i : Nat) (hc : 0 < c) (hi : i < words.length) :
    String.intercalate " " (chunkWindow words c i) ≠ "" := by
  have hdrop : words.drop i ≠ [] := by
    apply List.ne_nil_of_length_pos
    rw [List.length_drop]
    omega
  obtain ⟨a, as, ha⟩ := List.exists_cons_of_ne_nil hdrop
  obtain ⟨c', rfl⟩ : ∃ c', c = c' + 1 := ⟨c - 1, by omega⟩
  have hwin : chunkWindow words (c' + 1) i = a :: as.take c' := by
    rw [chunkWindow, ha, List.take_succ_cons]
  rw [hwin]
  apply intercalate_cons_ne_empty
  apply hw
  exact List.drop_subset i words (ha ▸ List.mem_cons_self a as)

theorem lp_chunk_core_eq_windows (text : String) (c o : Nat) (h : o < c) :
    lp_chunk_core text c o = chunkWindows (pySplit text) c (c - o) := by
  rw [lp_chunk_core, List.filter_eq_self]
  intro s hs
  simp only [chunkWindows, List.mem_map] at hs
  obtain ⟨i, hi, rfl⟩ := hs
  have hlt : i < (pySplit text).length := mem_pyRange_lt (by omega) hi
  simp only [decide_eq_true_eq]
  exact chunkWindow_join_ne_empty (pySplit text) (pySplit_ne_empty text) c i (by omega) hlt

theorem chunkWindows_length (words : List String) (c step : Nat) :
    (chunkWindows words c step).length = ceil_div words.length step := by
  simp [chunkWindows, pyRange_length]

theorem pyRange_singleton {n step : Nat} (h1 : 1 ≤ n) (h2 : n ≤ step) :
    pyRange n step = [0] := by
  have hc : ceil_div n step = 1 :=
    Nat.div_eq_of_lt_le (by omega) (by omega)
  simp [pyRange, hc, List.range_succ]

theorem rag_chunk_text_defaults (text : String) :
    rag_chunk_text text 600 100 = Except.ok (rag_chunk_core text 600 100) := by
  by_cases h : text = ""
  · subst h; decide
  · simp [rag_chunk_text, h]

theorem apology_cases (language : String) :
    apology language = "Désolé, je ne peux pas répondre à cette question pour le moment."
    ∨ apology language = "Samahani, siwezi kujibu swali hilo kwa sasa."
    ∨ apology language = "Sorry, I cannot answer that question at the moment." := by
  by_cases h1 : language = "fr"
  · left; simp [apology, h1]
  · by_cases h2 : language = "sw"
    · right; left; simp [apology, h1, h2]
    · right; right; simp [apology, h1, h2]

/-- C1 (amended): for `overlap < chunk_size`, `llm_pipeline.chunk_text`
returns all windows `words[i*step : i*step + chunk_size]` with
`step = chunk_size - overlap`; the number of chunks is
`ceil(len(words) / step)` (not `ceil((len(words) - overlap) / step)`);
the last `overlap`-word suffix region of a window coincides with the
first `overlap` words of the next window, and consecutive chunks share
exactly `overlap` words precisely when the earlier window is full. -/
theorem lp_chunk_text_structure (text : String) (chunk_size overlap : Nat)
    (h : overlap < chunk_size) :
    lp_chunk_text text chunk_size overlap =
      Except.ok (chunkWindows (pySplit text) chunk_size (chunk_size - overlap))
    ∧ (lp_chunk_core text chunk_size overlap).length =
        ceil_div (pySplit text).length (chunk_size - overlap)
    ∧ (∀ i, (chunkWindow (pySplit text) chunk_size i).drop (chunk_size - overlap) =
          (chunkWindow (pySplit text) chunk_size (i + (chunk_size - overlap))).take overlap)
    ∧ (∀ i, i + chunk_size ≤ (pySplit text).length →
          ((chunkWindow (pySplit text) chunk_size i).drop (chunk_size - overlap)).length
            = overlap) := by
  refine ⟨?_, ?_, ?_, ?_⟩
  · rw [lp_chunk_text, if_pos h, lp_chunk_core_eq_windows text chunk_size overlap h]
  · rw [lp_chunk_core_eq_windows text chunk_size overlap h, chunkWindows_length]
  · intro i
    rw [chunkWindow, chunkWindow, List.drop_take, List.drop_drop, List.take_take,
      Nat.sub_sub_self (Nat.le_of_lt h)]
    congr 1
    omega
  · intro i hi
    rw [chunkWindow, List.length_drop, List.length_take, List.length_drop]
    omega

/-- C1 witness: the structure theorem applied at a concrete text and
parameters. -/
theorem lp_chunk_text_structure_witness :
    lp_chunk_text "w w w" 2 1 = Except.ok (chunkWindows (pySplit "w w w") 2 1)
    ∧ (lp_chunk_core "w w w" 2 1).length = ceil_div 3 1 := by
  have h := lp_chunk_text_structure "w w w" 2 1 (by decide)
  exact ⟨h.1, by rw [h.2.1]; decide⟩

/-- C1 counterexample: on the 10-word text below with `chunk_size = 8` and
`overlap = 4`, `llm_pipeline.chunk_text` produces 3 chunks while the
claimed formula `ceil((len(words) - overlap) / (chunk_size - overlap))`
gives 2, and the last two chunks share only 2 words, not 4. -/
theorem lp_chunk_count_counterexample :
    lp_chunk_text "a a a a a a a a a a" 8 4 =
      Except.ok ["a a a a a a a a", "a a a a a a", "a a"]
    ∧ (pySplit "a a a a a a a a a a").length = 10
    ∧ ceil_div (10 - 4) (8 - 4) = 2
    ∧ ((chunkWindow (pySplit "a a a a a a a a a a") 8 4).drop 4).length = 2 := by
  decide

/-- C2 (amended): when the word count is at most `chunk_size - overlap`
(not merely below `chunk_size`), `AfricanRAGService.chunk_text` returns
zero chunks for a wordless text, and otherwise exactly one chunk — the
words re-joined by single spaces (not the stripped input) — when that
chunk passes the 50-character minimum, and zero chunks when it does not. -/
theorem rag_chunk_small_text (text : String) (chunk_size overlap : Nat)
    (h1 : overlap < chunk_size)
    (h2 : (pySplit text).length ≤ chunk_size - overlap) :
    rag_chunk_text text chunk_size overlap = Except.ok
      (if (pySplit text).isEmpty then []
       else if 50 < (pyStrip (String.intercalate " " (pySplit text))).length
       then [String.intercalate " " (pySplit text)]
       else []) := by
  by_cases ht : text = ""
  · subst ht
    have h0 : pySplit "" = [] := rfl
    rw [rag_chunk_text, if_pos rfl, h0]
    rfl
  · rw [rag_chunk_text, if_neg ht, if_pos h1]
    by_cases hn : pySplit text = []
    · have hr : pyRange (0 : Nat) (chunk_size - overlap) = [] := by
        have : ceil_div 0 (chunk_size - overlap) = 0 := by
          rw [ceil_div]
          exact Nat.div_eq_of_lt (by omega)
        simp [pyRange, this]
      simp [rag_chunk_core, chunkWindows, hn, hr]
    · have hl : 1 ≤ (pySplit text).length := List.length_pos.mpr hn
      have hr := pyRange_singleton hl h2
      have hwin : chunkWindow (pySplit text) chunk_size 0 = pySplit text := by
        rw [chunkWindow, List.drop_zero]
        exact List.take_of_length_le (by omega)
      rw [rag_chunk_core, chunkWindows, hr]
      simp only [List.map_cons, List.map_nil, hwin]
      rw [List.isEmpty_eq_false.mpr hn]
      simp only [List.filter]
      by_cases h50 : 50 < (pyStrip (String.intercalate " " (pySplit text))).length <;>
        simp [h50]

/-- C2 witness: the small-text theorem applied at a concrete short text
with the default parameters (two words, below the 50-character minimum,
hence zero chunks). -/
theorem rag_chunk_small_text_witness :
    rag_chunk_text "hello world" 600 100 = Except.ok [] := by
  have h := rag_chunk_small_text "hello world" 600 100 (by decide) (by decide)
  rw [h]; decide

/-- C2 counterexample: with `chunk_size = 5`, `overlap = 3`, the 4-word
text "a b c d" (word count below `chunk_size`) yields two chunks, not
one; and with `llm_pipeline`'s defaults, the single chunk for a
double-spaced text is the words re-joined by single spaces, which
differs from the stripped input. -/
theorem chunk_small_text_counterexample :
    lp_chunk_text "a b c d" 5 3 = Except.ok ["a b c d", "c d"]
    ∧ (pySplit "a b c d").length = 4
    ∧ lp_chunk_text "aa  bb" 512 64 = Except.ok ["aa bb"]
    ∧ pyStrip "aa  bb" = "aa  bb"
    ∧ "aa bb" ≠ "aa  bb" := by
  decide

/-- C3 (amended): a call with `chunk_size = overlap` on a text with words
to chunk does raise (the `ValueError` from `range` with zero step), but a
call with `chunk_size < overlap` is NOT rejected: the descending `range`
is empty, so both chunkers silently return the empty list. -/
theorem chunk_precondition_behavior (text : String) (chunk_size overlap : Nat) :
    (chunk_size = overlap → text ≠ "" →
       rag_chunk_text text chunk_size overlap = Except.error pyRangeZeroStepError)
    ∧ (chunk_size = overlap →
       lp_chunk_text text chunk_size overlap = Except.error pyRangeZeroStepError)
    ∧ (chunk_size < overlap →
       rag_chunk_text text chunk_size overlap = Except.ok [])
    ∧ (chunk_size < overlap →
       lp_chunk_text text chunk_size overlap = Except.ok []) := by
  refine ⟨?_, ?_, ?_, ?_⟩
  · intro h ht
    rw [rag_chunk_text, if_neg ht, if_neg (by omega), if_pos h]
  · intro h
    rw [lp_chunk_text, if_neg (by omega), if_pos h]
  · intro h
    by_cases ht : text = ""
    · rw [rag_chunk_text, if_pos ht]
    · rw [rag_chunk_text, if_neg ht, if_neg (by omega), if_neg (by omega)]
  · intro h
    rw [lp_chunk_text, if_neg (by omega), if_neg (by omega)]

/-- C3 witness: the precondition-behavior theorem applied at concrete
parameters on both sides of the boundary. -/
theorem chunk_precondition_behavior_witness :
    rag_chunk_text "hi there" 3 3 = Except.error pyRangeZeroStepError
    ∧ lp_chunk_text "hi there" 3 3 = Except.error pyRangeZeroStepError
    ∧ rag_chunk_text "hi there" 2 3 = Except.ok []
    ∧ lp_chunk_text "hi there" 2 3 = Except.ok [] :=
  ⟨(chunk_precondition_behavior "hi there" 3 3).1 rfl (by decide),
   (chunk_precondition_behavior "hi there" 3 3).2.1 rfl,
   (chunk_precondition_behavior "hi there" 2 3).2.2.1 (by decide),
   (chunk_precondition_behavior "hi there" 2 3).2.2.2 (by decide)⟩

/-- C3 counterexample: a call with `chunk_size < overlap` is not rejected
with a signalled error — both chunkers silently return an (empty) result. -/
theorem chunk_precondition_counterexample :
    rag_chunk_text "a b" 2 3 = Except.ok []
    ∧ lp_chunk_text "a b" 2 3 = Except.ok [] := by
  decide

/-- C4 (amended): when the search provider fails on every query,
`AfricanRAGService.web_search` returns the empty list (the exception is
absorbed), but `llm_pipeline.web_search` propagates the provider's
exception to its caller. -/
theorem web_search_failure_behavior (provider : String → Except String SerpResults)
    (msg query : String) (num_results : Nat) (african_focus : Bool)
    (h : ∀ q, provider q = Except.error msg) :
    rag_web_search provider query num_results african_focus = []
    ∧ lp_web_search provider query num_results = Except.error msg := by
  constructor
  · rw [rag_web_search, h]
  · simp [lp_web_search, h]

/-- C4 witness: the failure-behavior theorem applied to a concretely
failing provider. -/
theorem web_search_failure_behavior_witness :
    rag_web_search (fun _ => Except.error "down") "q" 3 true = []
    ∧ lp_web_search (fun _ => Except.error "down") "q" 3 = Except.error "down" :=
  web_search_failure_behavior (fun _ => Except.error "down") "down" "q" 3 true
    (fun _ => rfl)

/-- C4 counterexample: `llm_pipeline.web_search` lets a provider failure
escape past the search boundary instead of returning an empty sequence. -/
theorem web_search_failure_counterexample :
    lp_web_search (fun _ => Except.error "search provider down") "q" 3 =
      Except.error "search provider down" := by
  decide

/-- C5: the page fetchers never raise — the model is a total function —
and return `""` on any error outcome; a success is truncated, so the
result length never exceeds the ceiling (5000 characters in
`llm_pipeline.fetch_webpage_text`, `max_chars` — 8000 at the call sites —
in `AfricanRAGService.fetch_webpage_content`). -/
theorem fetch_webpage_error_empty_and_bounded :
    (∀ e : String, fetch_webpage_text (Except.error e) = "")
    ∧ (∀ (e : String) (m : Nat), fetch_webpage_content (Except.error e) m = "")
    ∧ (∀ outcome : Except String String, (fetch_webpage_text outcome).length ≤ 5000)
    ∧ (∀ (outcome : Except String String) (m : Nat),
        (fetch_webpage_content outcome m).length ≤ m)
    ∧ (∀ outcome : Except String String,
        (fetch_webpage_content outcome 8000).length ≤ 8000) := by
  have hlen : ∀ (t : String) (n : Nat), (pyTake t n).length ≤ n := by
    intro t n
    show (t.data.take n).length ≤ n
    rw [List.length_take]
    omega
  refine ⟨fun e => rfl, fun e m => rfl, ?_, ?_, ?_⟩
  · intro outcome
    cases outcome with
    | ok t => exact hlen t 5000
    | error e => simp [fetch_webpage_text]
  · intro outcome m
    cases outcome with
    | ok t => exact hlen t m
    | error e => simp [fetch_webpage_content]
  · intro outcome
    cases outcome with
    | ok t => exact hlen t 8000
    | error e => simp [fetch_webpage_content]

/-- C6: when the completion call raises, `generate_response` returns the
fixed apology for the requested language — the French one contains
"Désolé" — and no sources block is appended to it (no apology contains
the sources marker, header word, or bullet). -/
theorem generate_response_synthesis_failure (llm : String → Except String String)
    (question context language : String) (sources : List SearchLink) (e : String)
    (h : llm (rag_system_prompt language context question) = Except.error e) :
    generate_response llm question context language sources = apology language
    ∧ strContains (apology "fr") "Désolé" = true
    ∧ strContains (apology language) "📚" = false
    ∧ strContains (apology language) "Sources" = false
    ∧ strContains (apology language) "•" = false := by
  refine ⟨?_, by decide, ?_, ?_, ?_⟩ <;>
    first
      | (rw [generate_response, h])
      | (rcases apology_cases language with ha | ha | ha <;> rw [ha] <;> decide)

/-- C6 witness: the synthesis-failure theorem applied to a concretely
failing completion call in French. -/
theorem generate_response_synthesis_failure_witness :
    generate_response (fun _ => Except.error "boom") "Q" "CTX" "fr" [] = apology "fr"
    ∧ strContains (apology "fr") "Désolé" = true := by
  have h := generate_response_synthesis_failure (fun _ => Except.error "boom")
    "Q" "CTX" "fr" [] "boom" rfl
  exact ⟨h.1, h.2.1⟩

/-- C7 (amended): `AfricanRAGService.generate_response` appends, on a
successful completion with a non-empty sources list, a sources block
listing exactly the first three sources in their search-ranked order
(regardless of fetch success), and never more than three; `run_agent` in
`llm_pipeline`, by contrast, lists every returned link (see the
counterexample). -/
theorem generate_response_sources_cap (llm : String → Except String String)
    (question context language response : String) (sources : List SearchLink)
    (h : llm (rag_system_prompt language context question) = Except.ok response)
    (hne : sources ≠ []) :
    generate_response llm question context language sources =
      pyStrip response ++ sources_header language ++ sources_block sources
    ∧ sources_block sources = sources_block (sources.take 3)
    ∧ (sources.take 3).length ≤ 3 := by
  refine ⟨?_, ?_, ?_⟩
  · rw [generate_response, h]
    simp only [List.isEmpty_eq_false.mpr hne]
    rfl
  · rw [sources_block, sources_block, List.take_take]
    norm_num
  · rw [List.length_take]
    omega

/-- C7 witness: the cap theorem applied to a concrete run with four
search-ranked sources and a successful completion. -/
theorem generate_response_sources_cap_witness :
    generate_response (fun _ => Except.ok "A") "q" "c" "en"
      [⟨"T1", "u1", "s"⟩, ⟨"T2", "u2", "s"⟩, ⟨"T3", "u3", "s"⟩, ⟨"T4", "u4", "s"⟩] =
      pyStrip "A" ++ sources_header "en" ++
        sources_block [⟨"T1", "u1", "s"⟩, ⟨"T2", "u2", "s"⟩, ⟨"T3", "u3", "s"⟩, ⟨"T4", "u4", "s"⟩]
    ∧ (([⟨"T1", "u1", "s"⟩, ⟨"T2", "u2", "s"⟩, ⟨"T3", "u3", "s"⟩,
        ⟨"T4", "u4", "s"⟩] : List SearchLink).take 3).length ≤ 3 := by
  have h := generate_response_sources_cap (fun _ => Except.ok "A") "q" "c" "en" "A"
    [⟨"T1", "u1", "s"⟩, ⟨"T2", "u2", "s"⟩, ⟨"T3", "u3", "s"⟩, ⟨"T4", "u4", "s"⟩]
    rfl (by decide)
  exact ⟨h.1, h.2.2⟩

/-- C7 counterexample: in a `run_agent` run in which four web sources are
all fetched successfully, the final answer's sources section lists all
four titles and links — more than the three highest-ranked the claim
allows. -/
theorem run_agent_sources_counterexample :
    (lp_web_search c7_oracles.provider "q" 4).map List.length = Except.ok 4
    ∧ fetch_webpage_text (c7_oracles.fetch "u4") ≠ ""
    ∧ run_agent c7_oracles "q" "en" 4 true =
        Except.ok "ANSWER\n\nSources :\n- T1 : u1\n- T2 : u2\n- T3 : u3\n- T4 : u4"
    ∧ strContains "ANSWER\n\nSources :\n- T1 : u1\n- T2 : u2\n- T3 : u3\n- T4 : u4"
        "- T4 : u4" = true := by
  decide

/-- C8 (amended): when the web search returns zero results,
`run_enhanced_rag` (with `include_african_context` set) generates its
answer from a context retrieved over exactly the African knowledge base
and an empty sources list; the answer is the fixed non-empty apology when
the completion call fails, and the stripped completion when it succeeds —
so it is non-empty provided the stripped completion is (a whitespace-only
completion yields an empty answer, see the counterexample). -/
theorem run_rag_zero_web_results (o : RagOracles) (question language : String)
    (num_web_sources : Nat) (search_african_focus : Bool)
    (h : rag_web_search o.provider question num_web_sources search_african_focus = []) :
    run_enhanced_rag o question language num_web_sources true search_african_focus =
      generate_response o.llm question
        (String.intercalate "\n" (o.retrieve african_knowledge_base question))
        language []
    ∧ (∀ e, o.llm (rag_system_prompt language
          (String.intercalate "\n" (o.retrieve african_knowledge_base question))
          question) = Except.error e →
        run_enhanced_rag o question language num_web_sources true search_african_focus =
          apology language ∧ apology language ≠ "")
    ∧ (∀ r, o.llm (rag_system_prompt language
          (String.intercalate "\n" (o.retrieve african_knowledge_base question))
          question) = Except.ok r →
        run_enhanced_rag o question language num_web_sources true search_african_focus =
          pyStrip r) := by
  have hchunks : rag_web_chunks o question num_web_sources search_african_focus = [] := by
    rw [rag_web_chunks, h]
    rfl
  have hmain : run_enhanced_rag o question language num_web_sources true search_african_focus =
      generate_response o.llm question
        (String.intercalate "\n" (o.retrieve african_knowledge_base question))
        language [] := by
    rw [run_enhanced_rag, h, hchunks]
    rfl
  refine ⟨hmain, ?_, ?_⟩
  · intro e he
    constructor
    · rw [hmain, generate_response, he]
    · rcases apology_cases language with ha | ha | ha <;> rw [ha] <;> decide
  · intro r hr
    rw [hmain, generate_response, hr]
    rfl

/-- C8 witness: the zero-results theorem applied to concrete
collaborators whose completion call succeeds with non-empty text. -/
theorem run_rag_zero_web_results_witness :
    run_enhanced_rag c8w_oracles "q" "fr" 5 true true = pyStrip "Bonjour"
    ∧ run_enhanced_rag c8w_oracles "q" "fr" 5 true true ≠ "" := by
  have h := (run_rag_zero_web_results c8w_oracles "q" "fr" 5 true (by decide)).2.2
    "Bonjour" rfl
  exact ⟨h, by rw [h]; decide⟩

/-- C8 counterexample: with zero web results and a completion call that
succeeds with the empty string, `run_enhanced_rag` returns the empty
string — not a non-empty answer. -/
theorem run_rag_nonempty_counterexample :
    rag_web_search c8_oracles.provider "q" 5 true = []
    ∧ run_enhanced_rag c8_oracles "q" "en" 5 true true = "" := by
  decide

/-- C9: for a language code outside the supported set, prompt composition
falls back to the English templates — `_get_language_prompts` returns the
`"en"` entry and the composed system prompt coincides with the English
one for every context and question; composition is a total pure function,
so it is deterministic and never an error. -/
theorem prompt_composition_fallback (language : String)
    (h1 : language ≠ "en") (h2 : language ≠ "fr") (h3 : language ≠ "sw") :
    get_language_prompts language = get_language_prompts "en"
    ∧ (∀ context question, rag_system_prompt language context question =
        rag_system_prompt "en" context question) := by
  have hp : get_language_prompts language = get_language_prompts "en" := by
    simp [get_language_prompts, h1, h2, h3]
  exact ⟨hp, fun context question => by
    simp only [rag_system_prompt, hp]⟩

/-- C9 witness: the fallback theorem applied at the unsupported language
code "xx". -/
theorem prompt_composition_fallback_witness :
    get_language_prompts "xx" = get_language_prompts "en"
    ∧ rag_system_prompt "xx" "CTX" "Q" = rag_system_prompt "en" "CTX" "Q" := by
  have h := prompt_composition_fallback "xx" (by decide) (by decide) (by decide)
  exact ⟨h.1, h.2 "CTX" "Q"⟩

/-- C10: when no web chunk was obtained and `include_african_context` is
false — an empty assembled corpus — `run_enhanced_rag` still uses the
first 5 entries of the African knowledge base, joined by newlines, as the
generation context, so the knowledge base influences the answer even
though the caller excluded African context. -/
theorem run_rag_kb_context_fallback (o : RagOracles) (question language : String)
    (num_web_sources : Nat) (search_african_focus : Bool)
    (h : rag_web_chunks o question num_web_sources search_african_focus = []) :
    run_enhanced_rag o question language num_web_sources false search_african_focus =
      generate_response o.llm question
        (String.intercalate "\n" (african_knowledge_base.take 5)) language
        (rag_web_search o.provider question num_web_sources search_african_focus)
    ∧ african_knowledge_base.take 5 ≠ [] := by
  constructor
  · rw [run_enhanced_rag, h]
    rfl
  · decide

/-- C10 witness: the empty-corpus theorem applied to concrete
collaborators with one search result whose fetch fails. -/
theorem run_rag_kb_context_fallback_witness :
    run_enhanced_rag c10_oracles "q" "en" 5 false true =
      generate_response c10_oracles.llm "q"
        (String.intercalate "\n" (african_knowledge_base.take 5)) "en"
        (rag_web_search c10_oracles.provider "q" 5 true)
    ∧ african_knowledge_base.take 5 ≠ [] :=
  run_rag_kb_context_fallback c10_oracles "q" "en" 5 true (by decide)
